import Mathlib

/-!
Verification of the Sentinel spatial aggregation and voting engine
(src/sentinel/src). The JavaScript source is embedded shallowly: pure
computations become Lean functions, component state becomes explicit
state values threaded through step functions, and the external
collaborators (the Firestore adapter, the geolib getDistance function
and the Gemini classifier) enter the model as explicit arguments or as
oracle data, exactly as the specification treats them.
-/

namespace Sentinel

/-- Geographic coordinate pair, the lat and lng fields used throughout
MapView.jsx and ReportForm.jsx. Coordinates only flow into the external
geolib getDistance function, which is modelled as an explicit function
argument everywhere, so an integer representation of the numeric fields
suffices for every claim checked here. -/
structure Coord where
  lat : Int
  lng : Int
deriving DecidableEq

/-- Vote counters of a report: the votes.up and votes.down fields. -/
structure Votes where
  up : Nat
  down : Nat
deriving DecidableEq

/-- One report record as held in the reports state of MapView.jsx and as
created by ReportForm.jsx. Fields that MapView.jsx reads defensively
(pos via the guard at lines 142 and 261, radius via the defaults at
lines 147 and 424, crimeProb via the default at line 218) are Options,
since a raw Firestore document may lack them. -/
structure Report where
  id : String
  pos : Option Coord
  title : String
  desc : String
  category : String
  votes : Votes
  radius : Option Nat
  crimeProb : Option Nat
  createdAt : String
deriving DecidableEq

/-- The fixed category enumeration named by the specification. -/
def categoryEnum : List String := ["Severe", "Moderate", "Low", "Uncategorized"]

/-- Model of the JavaScript String.prototype.trim call: drops whitespace
from both ends of the character list, structurally, so the kernel can
evaluate it on concrete strings. -/
def jsTrim (s : String) : String :=
  String.mk (((s.data.dropWhile Char.isWhitespace).reverse.dropWhile
    Char.isWhitespace).reverse)

/-- Model of String.prototype.toLowerCase, lowering each character. -/
def jsToLower (s : String) : String :=
  String.mk (s.data.map Char.toLower)

/-- Helper for the model of String.prototype.includes: does the pattern
occur at the head of the text. -/
def strStartsWith : List Char → List Char → Bool
  | [], _ => true
  | _ :: _, [] => false
  | p :: ps, c :: cs => p == c && strStartsWith ps cs

/-- Model of String.prototype.includes: the pattern occurs contiguously
somewhere in the text. -/
def strContains (pat : List Char) : List Char → Bool
  | [] => strStartsWith pat []
  | c :: cs => strStartsWith pat (c :: cs) || strContains pat cs

/-- Outcome of the external Gemini generateContent call made inside
generateSeverity (src/api/geminiCategorizer.js): either the response
text, or a thrown error. The network call is an external collaborator,
so its outcome enters the model as oracle data. -/
inductive ClassifierResponse where
  | ok (text : String)
  | error
deriving DecidableEq

/-- generateSeverity from src/api/geminiCategorizer.js lines 17 to 69: a
successful call returns the trimmed response text unchanged and
unvalidated (lines 57 to 60); any thrown error is caught and the string
Uncategorized is returned instead (lines 62 to 66). -/
def generateSeverity (response : ClassifierResponse) : String :=
  match response with
  | .ok text => jsTrim text
  | .error => "Uncategorized"

/-- Local state of the ReportForm component: the title, description,
radius and crimeRate useState hooks (ReportForm.jsx lines 46 to 49). -/
structure FormState where
  title : String
  description : String
  radius : Nat
  crimeRate : Nat
deriving DecidableEq

/-- Initial ReportForm state: empty title and description, radius 300
and crimeRate 0, the useState initial values at ReportForm.jsx lines 46
to 49. -/
def initialFormState : FormState :=
  { title := "", description := "", radius := 300, crimeRate := 0 }

/-- Events that can update the ReportForm state before submission: the
three input onChange handlers (ReportForm.jsx lines 137, 148 and 162)
and the mount effect that calls setCrimeRate 0 (lines 54 to 56). These
are the only setter calls reachable in the component, and in particular
no event ever sets crimeRate to a nonzero value. -/
inductive FormEvent where
  | setTitle (s : String)
  | setDescription (s : String)
  | setRadius (n : Nat)
  | mountEffect

/-- One state update of the ReportForm component. -/
def stepForm (st : FormState) : FormEvent → FormState
  | .setTitle s => { st with title := s }
  | .setDescription s => { st with description := s }
  | .setRadius n => { st with radius := n }
  | .mountEffect => { st with crimeRate := 0 }

/-- The form state reached from mount after an arbitrary event history. -/
def runForm (events : List FormEvent) : FormState :=
  events.foldl stepForm initialFormState

/-- handleSubmit from ReportForm.jsx lines 66 to 116: submission is
refused when the trimmed title or trimmed description is empty (line
69); otherwise the record assembled at lines 78 to 87 is written to
Firestore. The Firestore generated document id and the timestamp string
are supplied by the environment as docId and createdAt. -/
def handleSubmit (st : FormState) (position : Coord) (docId : String)
    (createdAt : String) (response : ClassifierResponse) : Option Report :=
  if jsTrim st.title = "" ∨ jsTrim st.description = "" then none
  else some
    { id := docId
      pos := some position
      title := jsTrim st.title
      desc := jsTrim st.description
      category := generateSeverity response
      votes := { up := 0, down := 0 }
      radius := some st.radius
      crimeProb := some st.crimeRate
      createdAt := createdAt }

/-- The crimeRate state of the ReportForm component is 0 in every
reachable state: it starts at 0 and no event changes it to anything
else. -/
lemma crimeRate_runForm (events : List FormEvent) :
    (runForm events).crimeRate = 0 := by
  have h : ∀ (st : FormState) (evts : List FormEvent), st.crimeRate = 0 →
      (evts.foldl stepForm st).crimeRate = 0 := by
    intro st evts
    induction evts generalizing st with
    | nil => intro h; exact h
    | cons e es ih =>
      intro h
      cases e <;> exact ih _ (by simp [stepForm, h])
  exact h _ _ rfl

/-- C10: every report created through the submission form stores
crimeProb equal to exactly 0, for every event history of the form and
every submitted title, description, radius, position and classifier
outcome: the per-report crime rate state is initialised to 0 and never
updated before being written into the new record. -/
theorem crimeProb_zero (events : List FormEvent) (position : Coord)
    (docId createdAt : String) (response : ClassifierResponse) (r : Report)
    (h : handleSubmit (runForm events) position docId createdAt response = some r) :
    r.crimeProb = some 0 := by
  unfold handleSubmit at h
  split at h
  · exact absurd h (by simp)
  · have hr := Option.some.inj h
    subst hr
    simp [crimeRate_runForm]

/-- Concrete position used by the evaluation theorems. -/
def demoPos : Coord := { lat := 1, lng := 2 }

/-- Concrete event history used by the evaluation theorems. -/
def demoEvents : List FormEvent := [.setTitle "a", .setDescription "b"]

/-- Concrete report produced by submitting the demo form state. -/
def demoCreated : Report :=
  { id := "id1", pos := some demoPos, title := "a", desc := "b",
    category := "Uncategorized", votes := { up := 0, down := 0 },
    radius := some 300, crimeProb := some 0, createdAt := "t1" }

/-- C10 witness: a concrete submission evaluates to a record whose
crimeProb is 0, via crimeProb_zero. -/
theorem crimeProb_zero_witness :
    handleSubmit (runForm demoEvents) demoPos "id1" "t1" .error = some demoCreated ∧
    demoCreated.crimeProb = some 0 :=
  ⟨by decide, crimeProb_zero demoEvents demoPos "id1" "t1" .error demoCreated (by decide)⟩

/-- C8: when the classification call fails, report creation substitutes
the category Uncategorized and still creates the report; the failure is
absorbed inside generateSeverity and never surfaces as a failure of the
submission. -/
theorem classifier_failure_substituted (st : FormState) (position : Coord)
    (docId createdAt : String)
    (h1 : jsTrim st.title ≠ "") (h2 : jsTrim st.description ≠ "") :
    generateSeverity .error = "Uncategorized" ∧
    (handleSubmit st position docId createdAt .error).isSome = true ∧
    (handleSubmit st position docId createdAt .error).map Report.category
      = some "Uncategorized" := by
  refine ⟨rfl, ?_, ?_⟩ <;> simp [handleSubmit, h1, h2, generateSeverity]

/-- Concrete nonempty form state used by the evaluation theorems. -/
def validFormState : FormState :=
  { title := "x", description := "y", radius := 300, crimeRate := 0 }

/-- C8 witness: the concrete demo state satisfies the nonemptiness
hypotheses and classifier_failure_substituted applies to it. -/
theorem classifier_failure_substituted_witness :
    jsTrim validFormState.title ≠ "" ∧ jsTrim validFormState.description ≠ "" ∧
    (generateSeverity .error = "Uncategorized" ∧
     (handleSubmit validFormState demoPos "id0" "t0" .error).isSome = true ∧
     (handleSubmit validFormState demoPos "id0" "t0" .error).map Report.category
       = some "Uncategorized") :=
  ⟨by decide, by decide,
   classifier_failure_substituted validFormState demoPos "id0" "t0"
     (by decide) (by decide)⟩

/-- C7: the classification step performs no validation of the model
response, so a response text outside the fixed enumeration is stored
verbatim as the category of the created report, although the doc
comment of generateSeverity promises only the four enumeration values.
Failing input: classifier response text Critical on the demo title and
description. -/
theorem category_outside_enum :
    generateSeverity (.ok "Critical") = "Critical" ∧
    (handleSubmit validFormState demoPos "id0" "t0" (.ok "Critical")).map
      Report.category = some "Critical" ∧
    "Critical" ∉ categoryEnum := by decide

/-- State touched by a vote: the votes fields of the report documents in
the reports collection, and the per-user userVotes documents, each a map
from report id to true (MapView.jsx lines 82 to 98 mirror both into the
component as voted and reports). Modelled as total maps, since handleVote
addresses single documents by id. -/
structure VoteLedger where
  reportVotes : String → Votes
  voted : String → String → Bool

/-- Outcome of one handleVote call: the guard return for a missing user
id (MapView.jsx lines 109 to 112), a successful batch commit, or a
commit failure caught at line 121. The function has no other exit, and
in particular no already voted rejection. -/
inductive VoteOutcome where
  | ok
  | unauthenticated
  | commitFailed
deriving DecidableEq

/-- The single field update of handleVote, MapView.jsx lines 116 to 117:
the field votes.up or votes.down selected by the comparison of type with
1 is incremented by exactly 1. -/
def applyVoteDelta (type : Int) (v : Votes) : Votes :=
  if type = 1 then { v with up := v.up + 1 } else { v with down := v.down + 1 }

/-- handleVote from MapView.jsx lines 108 to 124, the vote entry point:
after the missing user guard it unconditionally commits one Firestore
writeBatch carrying both the counter increment of the addressed report
and the merge of the report id into the userVotes document of the user.
The batch is atomic on the adapter side: commitOk says whether the
commit succeeded, and a failed commit is caught at line 121 leaving
every record unchanged. The function performs no check of the
votedReportIds of the user: the only duplicate prevention anywhere in
the program is the disabled attribute of the vote buttons at lines 571
to 593, driven by the asynchronously updated voted mirror, which is not
part of this operation and cannot stop a second call arriving before
the mirror refreshes. -/
def handleVote (st : VoteLedger) (uid : Option String) (reportId : String)
    (type : Int) (commitOk : Bool) : VoteLedger × VoteOutcome :=
  match uid with
  | none => (st, .unauthenticated)
  | some u =>
    if commitOk then
      ({ reportVotes := fun rid =>
           if rid = reportId then applyVoteDelta type (st.reportVotes rid)
           else st.reportVotes rid,
         voted := fun v rid =>
           if v = u then (if rid = reportId then true else st.voted v rid)
           else st.voted v rid }, .ok)
    else (st, .commitFailed)

/-- Concrete empty ledger used by the evaluation theorems. -/
def emptyLedger : VoteLedger :=
  { reportVotes := fun _ => { up := 0, down := 0 }, voted := fun _ _ => false }

/-- C1: the code lacks the claimed behavior. handleVote never consults
the votedReportIds of the user, so from the fresh ledger a first
successful vote records the report id in the per user set, yet an
immediate second call by the same user on the same report still returns
ok instead of an already voted rejection and increments votes.up a
second time: the counters receive two increments across the two calls
where the claim and the specification require a rejection and exactly
one increment in total. -/
theorem vote_double_count :
    (handleVote emptyLedger (some "u1") "r1" 1 true).2 = .ok ∧
    (handleVote emptyLedger (some "u1") "r1" 1 true).1.voted "u1" "r1" = true ∧
    (handleVote (handleVote emptyLedger (some "u1") "r1" 1 true).1
       (some "u1") "r1" 1 true).2 = .ok ∧
    (handleVote (handleVote emptyLedger (some "u1") "r1" 1 true).1
       (some "u1") "r1" 1 true).1.reportVotes "r1"
      = { up := 2, down := 0 } := by decide

/-- C5: a vote applies its two sub operations as a single all or nothing
unit. In every outcome of a vote attempt, either the ledger is left
completely unchanged, or the attempt returned ok, the counters of the
report received exactly the one selected increment, and the report id
was inserted into the votedReportIds of the user: the vote is never
recorded without the count incremented nor the count incremented without
the vote recorded. -/
theorem vote_atomicity (st : VoteLedger) (uid : Option String)
    (reportId : String) (t : Int) (c : Bool) :
    (handleVote st uid reportId t c).1 = st ∨
    ((handleVote st uid reportId t c).2 = .ok ∧
     (handleVote st uid reportId t c).1.reportVotes reportId
       = applyVoteDelta t (st.reportVotes reportId) ∧
     (∃ u, uid = some u ∧ (handleVote st uid reportId t c).1.voted u reportId = true)) := by
  match uid with
  | none => exact Or.inl rfl
  | some u =>
    cases c with
    | false => exact Or.inl (by simp [handleVote])
    | true =>
      refine Or.inr ⟨by simp [handleVote], by simp [handleVote], u, rfl, ?_⟩
      simp [handleVote]

/-- Text filter of the view pipeline, MapView.jsx lines 251 to 256: case
insensitive containment of the query string in the concatenation of
title and description joined by one space. -/
def matchesSearch (searchQuery : String) (r : Report) : Bool :=
  strContains (jsToLower searchQuery).data
    (jsToLower (r.title ++ " " ++ r.desc)).data

/-- Spatial filter of the view pipeline, MapView.jsx lines 257 to 269: in
nearby mode with a map center and a report position, keep the report
when its distance from the center is at most rangeKm times 1000 meters;
in every other case the report is kept. The external geolib getDistance
function is the explicit dist argument. -/
def spatialFilter (dist : Coord → Coord → Nat) (sortMode : String)
    (mapCenter : Option Coord) (rangeKm : Nat) (r : Report) : Bool :=
  if sortMode = "nearby" then
    match mapCenter, r.pos with
    | some c, some p => decide (dist c p ≤ rangeKm * 1000)
    | _, _ => true
  else true

/-- Severity rank used by the severity sort, the order object at
MapView.jsx line 275 together with the fallback 0 at line 276 for any
category outside it. -/
def severityOrder (cat : String) : Int :=
  if cat = "Severe" then 3
  else if cat = "Moderate" then 2
  else if cat = "Low" then 1
  else 0

/-- The sort key selected by sortBy, MapView.jsx lines 270 to 279: the
comparator returns the key of b minus the key of a, which is the stable
descending order on this key; an unknown sortBy value compares
everything equal. -/
def sortKey (sortBy : String) (r : Report) : Int :=
  if sortBy = "upvotes" then (r.votes.up : Int)
  else if sortBy = "downvotes" then (r.votes.down : Int)
  else if sortBy = "severity" then severityOrder r.category
  else 0

/-- Stable descending insertion: the new element is placed after every
element with a strictly larger key and before every element with an
equal or smaller key, so elements already in the list that compare equal
to it stay in front of it. -/
def insertDesc (key : Report → Int) (x : Report) : List Report → List Report
  | [] => [x]
  | y :: ys => if key x < key y then y :: insertDesc key x ys else x :: y :: ys

/-- Stable descending sort on a key. Models the ECMAScript
Array.prototype.sort call with the comparator of MapView.jsx lines 270
to 279: the ECMAScript sort is required to be stable and to order by the
comparator, and the comparator is the consistent descending comparison
of sortKey, so every stable descending sort on sortKey computes it. -/
def sortByKeyDesc (key : Report → Int) : List Report → List Report
  | [] => []
  | x :: xs => insertDesc key x (sortByKeyDesc key xs)

/-- The filtered and sorted view, the filteredReports pipeline of
MapView.jsx lines 250 to 279: text filter, then spatial filter, then
the stable sort on the selected key. -/
def filteredReports (dist : Coord → Coord → Nat) (reports : List Report)
    (searchQuery sortMode : String) (mapCenter : Option Coord)
    (rangeKm : Nat) (sortBy : String) : List Report :=
  sortByKeyDesc (sortKey sortBy)
    ((reports.filter (fun r => matchesSearch searchQuery r)).filter
      (fun r => spatialFilter dist sortMode mapCenter rangeKm r))

/-- Inserting an element is a permutation of consing it. -/
lemma insertDesc_perm (key : Report → Int) (x : Report) (l : List Report) :
    List.Perm (insertDesc key x l) (x :: l) := by
  induction l with
  | nil => exact List.Perm.refl _
  | cons y ys ih =>
    by_cases hxy : key x < key y
    · rw [insertDesc, if_pos hxy]
      exact (ih.cons y).trans (List.Perm.swap x y ys)
    · rw [insertDesc, if_neg hxy]

/-- The stable sort permutes its input. -/
lemma sortByKeyDesc_perm (key : Report → Int) (l : List Report) :
    List.Perm (sortByKeyDesc key l) l := by
  induction l with
  | nil => exact List.Perm.refl _
  | cons x xs ih => exact (insertDesc_perm key x _).trans (ih.cons x)

/-- Descending comparison on a key. -/
def keyGE (key : Report → Int) (a b : Report) : Prop := key b ≤ key a

/-- Inserting into a descending sorted list keeps it descending sorted. -/
lemma sorted_insertDesc (key : Report → Int) (x : Report) (l : List Report)
    (h : List.Sorted (keyGE key) l) :
    List.Sorted (keyGE key) (insertDesc key x l) := by
  induction l with
  | nil => simp [insertDesc, List.sorted_singleton]
  | cons y ys ih =>
    rw [List.sorted_cons] at h
    obtain ⟨hy, hys⟩ := h
    by_cases hxy : key x < key y
    · rw [insertDesc, if_pos hxy, List.sorted_cons]
      refine ⟨?_, ih hys⟩
      intro z hz
      have hz2 := List.mem_cons.mp (((insertDesc_perm key x ys).mem_iff).mp hz)
      rcases hz2 with hz2 | hz2
      · rw [hz2]; exact le_of_lt hxy
      · exact hy z hz2
    · rw [insertDesc, if_neg hxy, List.sorted_cons]
      refine ⟨?_, List.sorted_cons.mpr ⟨hy, hys⟩⟩
      intro z hz
      rcases List.mem_cons.mp hz with hz | hz
      · rw [hz]; exact le_of_not_lt hxy
      · exact le_trans (hy z hz) (le_of_not_lt hxy)

/-- The stable sort produces a descending sorted list. -/
lemma sorted_sortByKeyDesc (key : Report → Int) (l : List Report) :
    List.Sorted (keyGE key) (sortByKeyDesc key l) := by
  induction l with
  | nil => exact List.sorted_nil
  | cons x xs ih => exact sorted_insertDesc key x _ ih

/-- Filtering the elements of one key value through an insertion: the
inserted element lands in front of the equal key elements already
present, and every element it passes over has a strictly larger key. -/
lemma filter_insertDesc (key : Report → Int) (k : Int) (x : Report)
    (l : List Report) :
    (insertDesc key x l).filter (fun r => decide (key r = k)) =
      if key x = k then x :: l.filter (fun r => decide (key r = k))
      else l.filter (fun r => decide (key r = k)) := by
  induction l with
  | nil =>
    by_cases hxk : key x = k <;> simp [insertDesc, List.filter, hxk]
  | cons y ys ih =>
    rw [insertDesc]
    by_cases hxy : key x < key y
    · rw [if_pos hxy, List.filter_cons, ih]
      by_cases hxk : key x = k
      · have hyk : ¬ (key y = k) := by
          intro hy
          rw [hxk, hy] at hxy
          exact lt_irrefl k hxy
        simp [hxk, hyk, List.filter_cons]
      · simp [hxk, List.filter_cons]
    · rw [if_neg hxy]
      by_cases hxk : key x = k <;> simp [hxk, List.filter_cons]

/-- Stability of the sort, stated on the key fibers: for every key value,
the subsequence of elements carrying that key is unchanged by the sort,
which is exactly the statement that elements comparing equal keep their
relative pre sort order. -/
lemma filter_sortByKeyDesc (key : Report → Int) (k : Int) (l : List Report) :
    (sortByKeyDesc key l).filter (fun r => decide (key r = k)) =
      l.filter (fun r => decide (key r = k)) := by
  induction l with
  | nil => rfl
  | cons x xs ih =>
    rw [sortByKeyDesc, filter_insertDesc]
    by_cases hxk : key x = k <;> simp [List.filter_cons, hxk, ih]

/-- C6: the view sort is the stable descending sort on the fixed key of
the selected mode, with the keys the claim names: votes.up for upvotes,
votes.down for downvotes, and the rank Severe 3, Moderate 2, Low 1,
anything else 0 for severity. The output is descending sorted on the
key, and for every key value the subsequence of reports carrying it is
exactly the input subsequence, so any two reports comparing equal under
the selected key keep their relative pre sort order. -/
theorem view_sort_stable (sortBy : String) (l : List Report) (k : Int)
    (r : Report) :
    sortKey "upvotes" r = (r.votes.up : Int) ∧
    sortKey "downvotes" r = (r.votes.down : Int) ∧
    sortKey "severity" r = severityOrder r.category ∧
    List.Sorted (keyGE (sortKey sortBy)) (sortByKeyDesc (sortKey sortBy) l) ∧
    (sortByKeyDesc (sortKey sortBy) l).filter
        (fun x => decide (sortKey sortBy x = k)) =
      l.filter (fun x => decide (sortKey sortBy x = k)) :=
  ⟨rfl, rfl, rfl, sorted_sortByKeyDesc _ l, filter_sortByKeyDesc _ k l⟩

/-- A report with no position field, spatially not queryable. -/
def noPosReport : Report :=
  { id := "r0", pos := none, title := "t", desc := "d", category := "Low",
    votes := { up := 0, down := 0 }, radius := none, crimeProb := none,
    createdAt := "" }

/-- Distance function returning 0 everywhere, used by the evaluation
theorems in place of the external geolib getDistance argument. -/
def dist0 : Coord → Coord → Nat := fun _ _ => 0

/-- C4 counterexample: in nearby mode with a reference point, a report
with no position passes the spatial filter and appears in the view, in
contradiction with the claim that reports missing a position are
excluded from the nearby mode view: the guard at MapView.jsx line 261
falls through to the retaining return true when r.pos is absent. -/
theorem nearby_keeps_unqueryable_report :
    noPosReport ∈ filteredReports dist0 [noPosReport] "" "nearby"
      (some { lat := 0, lng := 0 }) 1 "upvotes" := by decide

/-- C4 amended: with a reference point present, the nearby mode view
retains exactly the text matching reports that either carry a position
within rangeKm times 1000 meters of the reference point or carry no
position at all, while the worldwide view retains exactly the text
matching reports; so reports missing a position are included in both
modes. -/
theorem spatial_filter_view (dist : Coord → Coord → Nat)
    (reports : List Report) (q : String) (c : Coord) (rangeKm : Nat)
    (sortBy : String) (r : Report) :
    (r ∈ filteredReports dist reports q "nearby" (some c) rangeKm sortBy ↔
      r ∈ reports ∧ matchesSearch q r = true ∧
        (match r.pos with
         | some p => dist c p ≤ rangeKm * 1000
         | none => True)) ∧
    (r ∈ filteredReports dist reports q "worldwide" (some c) rangeKm sortBy ↔
      r ∈ reports ∧ matchesSearch q r = true) := by
  constructor
  · rw [filteredReports, (sortByKeyDesc_perm _ _).mem_iff, List.mem_filter,
      List.mem_filter, and_assoc]
    refine and_congr_right fun _ => and_congr_right fun _ => ?_
    cases hp : r.pos with
    | none => simp [spatialFilter, hp]
    | some p => simp [spatialFilter, hp]
  · rw [filteredReports, (sortByKeyDesc_perm _ _).mem_iff, List.mem_filter,
      List.mem_filter, and_assoc]
    refine and_congr_right fun _ => ?_
    simp [spatialFilter]

/-- A heap of JavaScript arrays of reports, indexed by allocation order.
This models array identity: Array.prototype.filter allocates a fresh
array, while Array.prototype.sort mutates its receiver in place, so
whether the stored reports array survives the view computation is a
statement about which heap cell the sort writes. -/
structure ArrayHeap where
  arrs : List (List Report)
deriving DecidableEq

/-- Contents of the array at a heap index. -/
def readArr (h : ArrayHeap) (i : Nat) : List Report := (h.arrs[i]?).getD []

/-- Allocation of a fresh array, returning its index. -/
def allocArr (h : ArrayHeap) (v : List Report) : ArrayHeap × Nat :=
  ({ arrs := h.arrs ++ [v] }, h.arrs.length)

/-- In place overwrite of the array at a heap index. -/
def writeArr (h : ArrayHeap) (i : Nat) (v : List Report) : ArrayHeap :=
  { arrs := h.arrs.set i v }

/-- Array.prototype.filter: reads the receiver and allocates a fresh
array holding the kept elements; the receiver is untouched. -/
def jsFilterArr (h : ArrayHeap) (i : Nat) (p : Report → Bool) :
    ArrayHeap × Nat :=
  allocArr h ((readArr h i).filter p)

/-- Array.prototype.sort: overwrites the receiver in place with its
sorted contents and returns the receiver. -/
def jsSortArr (h : ArrayHeap) (i : Nat) (key : Report → Int) :
    ArrayHeap × Nat :=
  (writeArr h i (sortByKeyDesc key (readArr h i)), i)

/-- The filteredReports pipeline of MapView.jsx lines 250 to 279 run over
the array heap: reports.filter(text).filter(spatial).sort(comparator).
The receiver of the sort is the second filter result, never the stored
reports array. -/
def filteredReportsProg (dist : Coord → Coord → Nat) (h : ArrayHeap)
    (reportsRef : Nat) (searchQuery sortMode : String)
    (mapCenter : Option Coord) (rangeKm : Nat) (sortBy : String) :
    ArrayHeap × Nat :=
  let s1 := jsFilterArr h reportsRef (fun r => matchesSearch searchQuery r)
  let s2 := jsFilterArr s1.1 s1.2
    (fun r => spatialFilter dist sortMode mapCenter rangeKm r)
  jsSortArr s2.1 s2.2 (sortKey sortBy)

/-- Reading below the allocation point is unchanged by an allocation. -/
lemma readArr_alloc_lt (h : ArrayHeap) (v : List Report) (b : Nat)
    (hb : b < h.arrs.length) : readArr (allocArr h v).1 b = readArr h b := by
  simp [readArr, allocArr, List.getElem?_append_left hb]

/-- Reading the freshly allocated array yields its contents. -/
lemma readArr_alloc_new (h : ArrayHeap) (v : List Report) :
    readArr (allocArr h v).1 (allocArr h v).2 = v := by
  simp [readArr, allocArr, List.getElem?_concat_length]

/-- Reading any other array is unchanged by an in place write. -/
lemma readArr_write_ne (h : ArrayHeap) (a : Nat) (v : List Report) (b : Nat)
    (hne : a ≠ b) : readArr (writeArr h a v) b = readArr h b := by
  simp [readArr, writeArr, List.getElem?_set_ne hne]

/-- Reading the written array yields the written contents. -/
lemma readArr_write_self (h : ArrayHeap) (a : Nat) (v : List Report)
    (ha : a < h.arrs.length) : readArr (writeArr h a v) a = v := by
  simp [readArr, writeArr, List.getElem?_set_self ha]

/-- C9: the view computation is a pure projection of its inputs. Running
the pipeline over the heap leaves the stored reports array untouched,
because both filters allocate fresh arrays and the in place sort writes
only the second filter copy; and the array it returns holds exactly the
value of the pure function filteredReports of the inputs, so two runs
with identical inputs produce identical ordered output sequences. -/
theorem view_pure_projection (dist : Coord → Coord → Nat) (h : ArrayHeap)
    (i : Nat) (searchQuery sortMode : String) (mapCenter : Option Coord)
    (rangeKm : Nat) (sortBy : String) (hi : i < h.arrs.length) :
    readArr (filteredReportsProg dist h i searchQuery sortMode mapCenter
      rangeKm sortBy).1 i = readArr h i ∧
    readArr (filteredReportsProg dist h i searchQuery sortMode mapCenter
        rangeKm sortBy).1
      (filteredReportsProg dist h i searchQuery sortMode mapCenter
        rangeKm sortBy).2 =
      filteredReports dist (readArr h i) searchQuery sortMode mapCenter
        rangeKm sortBy := by
  constructor
  · simp only [filteredReportsProg, jsFilterArr, jsSortArr]
    rw [readArr_write_ne, readArr_alloc_lt, readArr_alloc_lt]
    · exact hi
    · simp [allocArr]
      omega
    · simp [allocArr]
      omega
  · simp only [filteredReportsProg, jsFilterArr, jsSortArr]
    rw [readArr_write_self, readArr_alloc_new, readArr_alloc_new]
    · rfl
    · simp [allocArr]

/-- Demo heap holding one stored reports array, for the evaluation
theorems. -/
def demoHeap : ArrayHeap := { arrs := [[noPosReport]] }

/-- C9 witness: view_pure_projection applied to the demo heap. -/
theorem view_pure_projection_witness :
    0 < demoHeap.arrs.length ∧
    (readArr (filteredReportsProg dist0 demoHeap 0 "" "worldwide" none
      7 "upvotes").1 0 = readArr demoHeap 0 ∧
     readArr (filteredReportsProg dist0 demoHeap 0 "" "worldwide" none
        7 "upvotes").1
       (filteredReportsProg dist0 demoHeap 0 "" "worldwide" none
        7 "upvotes").2 =
       filteredReports dist0 (readArr demoHeap 0) "" "worldwide" none
        7 "upvotes") :=
  ⟨by decide, view_pure_projection dist0 demoHeap 0 "" "worldwide" none
    7 "upvotes" (by decide)⟩

/-- Effective influence radius used by the risk coverage test: the
fallback radius ?? 800 of MapView.jsx lines 147 and 210. -/
def coverageRadius (r : Report) : Nat := r.radius.getD 800

/-- Effective radius used by the per report radius circle visualization:
the fallback radius ?? 300 of MapView.jsx line 424. -/
def displayRadius (r : Report) : Nat := r.radius.getD 300

/-- Coverage test of the risk computation, MapView.jsx lines 141 to 149:
a report with no position is not spatially queryable and never covers
the query point; otherwise the point is covered when its distance from
the report position is at most the effective influence radius of the
report. -/
def isNearby (dist : Coord → Coord → Nat) (click : Coord) (r : Report) : Bool :=
  match r.pos with
  | none => false
  | some p => decide (dist click p ≤ coverageRadius r)

/-- Per category weight of the risk computation, the score function at
MapView.jsx lines 152 to 153: 90 for Severe, 60 for Moderate and 30 for
every other category string. -/
def score (cat : String) : Nat :=
  if cat = "Severe" then 90 else if cat = "Moderate" then 60 else 30

/-- Math.round on the rational value of the JavaScript average: round
half up, the floor of the argument plus one half. The doubles involved
represent the exact rational values at the scale of this computation,
so rational arithmetic is a faithful model. -/
def jsRound (q : ℚ) : ℤ := Int.floor (q + 1 / 2)

/-- The category weighted risk score at a clicked point, MapView.jsx
lines 141 to 160: average the score over the covering reports, 0 when
none covers, then Math.round. -/
def centerCrimeRateByCategory (dist : Coord → Coord → Nat) (click : Coord)
    (reports : List Report) : ℤ :=
  jsRound
    (if 0 < (reports.filter (fun r => isNearby dist click r)).length then
      (((reports.filter (fun r => isNearby dist click r)).map
        (fun r => (score r.category : ℚ))).sum) /
        (((reports.filter (fun r => isNearby dist click r)).length : ℚ))
    else 0)

/-- Modelled from the spec: the per category severity weight named in
the Risk Scorer contract, Severe 90, Moderate 60, Low or Uncategorized
30. Stated separately from the score function of the code so the two
can be compared. -/
def specSeverityWeight (cat : String) : Nat :=
  if cat = "Severe" then 90
  else if cat = "Moderate" then 60
  else if cat = "Low" then 30
  else if cat = "Uncategorized" then 30
  else 0

/-- Modelled from the spec: rounding the average of s over n samples to
the nearest integer, as integer arithmetic with half rounded up. -/
def roundNearest (s n : Nat) : Nat := (2 * s + n) / (2 * n)

/-- Floor of a quotient of naturals over the rationals is natural
division. -/
lemma int_floor_nat_div (a b : Nat) (hb : 0 < b) :
    Int.floor ((a : ℚ) / (b : ℚ)) = ((a / b : Nat) : ℤ) := by
  have hbq : (0 : ℚ) < (b : ℚ) := by exact_mod_cast hb
  rw [Int.floor_eq_iff]
  constructor
  · rw [le_div_iff₀ hbq]
    have h := Nat.div_mul_le_self a b
    exact_mod_cast h
  · rw [div_lt_iff₀ hbq]
    have h1 := Nat.div_add_mod a b
    have h2 := Nat.mod_lt a hb
    have h : a < (a / b + 1) * b := by
      have : (a / b + 1) * b = b * (a / b) + b := by ring
      omega
    exact_mod_cast h

/-- Math.round of the average of a natural sum over a positive natural
count equals the integer rounding formula. -/
lemma jsRound_nat_avg (s n : Nat) (hn : 0 < n) :
    jsRound ((s : ℚ) / (n : ℚ)) = ((roundNearest s n : Nat) : ℤ) := by
  have hnq : ((n : ℚ)) ≠ 0 := by
    exact_mod_cast Nat.pos_iff_ne_zero.mp hn
  have hq : (s : ℚ) / (n : ℚ) + 1 / 2
      = (((2 * s + n : Nat)) : ℚ) / (((2 * n : Nat)) : ℚ) := by
    push_cast
    field_simp
    ring
  rw [jsRound, hq, int_floor_nat_div (2 * s + n) (2 * n) (by omega)]
  rfl

/-- Sums of mapped casts are casts of mapped sums. -/
lemma sum_map_cast (l : List Report) (f : Report → Nat) :
    ((l.map (fun r => ((f r : Nat) : ℚ))).sum) = (((l.map f).sum : Nat) : ℚ) := by
  induction l with
  | nil => simp
  | cons x xs ih => simp [ih]

/-- On the category enumeration the score function of the code agrees
with the severity weight of the spec. -/
lemma score_eq_specWeight (c : String) (h : c ∈ categoryEnum) :
    score c = specSeverityWeight c := by
  fin_cases h <;> rfl

/-- C2: the category weighted risk score is 0 when no spatially
queryable report covers the query point through its own effective
influence radius, and otherwise is the rounded average over the
covering reports of the per category weight of the spec, 90 for Severe,
60 for Moderate, 30 for Low or Uncategorized. -/
theorem riskByCategory_matches_spec (dist : Coord → Coord → Nat)
    (click : Coord) (reports : List Report)
    (hcat : ∀ r ∈ reports, r.category ∈ categoryEnum) :
    (reports.filter (fun r => isNearby dist click r) = [] →
      centerCrimeRateByCategory dist click reports = 0) ∧
    (reports.filter (fun r => isNearby dist click r) ≠ [] →
      centerCrimeRateByCategory dist click reports =
        ((roundNearest
          (((reports.filter (fun r => isNearby dist click r)).map
            (fun r => specSeverityWeight r.category)).sum)
          ((reports.filter (fun r => isNearby dist click r)).length) : Nat) : ℤ)) := by
  constructor
  · intro hempty
    rw [centerCrimeRateByCategory, hempty]
    have h0 : ¬ (0 < ([] : List Report).length) := by simp
    rw [if_neg h0, jsRound]
    rw [show ((0 : ℚ) + 1 / 2) = 1 / 2 by norm_num, Int.floor_eq_iff]
    norm_num
  · intro hne
    have hlen : 0 < (reports.filter (fun r => isNearby dist click r)).length :=
      List.length_pos.mpr hne
    have hmap : (reports.filter (fun r => isNearby dist click r)).map
        (fun r => score r.category) =
        (reports.filter (fun r => isNearby dist click r)).map
        (fun r => specSeverityWeight r.category) := by
      refine List.map_congr_left ?_
      intro r hr
      exact score_eq_specWeight r.category (hcat r (List.mem_of_mem_filter hr))
    rw [centerCrimeRateByCategory, if_pos hlen, sum_map_cast, hmap,
      jsRound_nat_avg _ _ hlen]

/-- Concrete covering reports with the three named categories, for the
evaluation theorems. -/
def severeReport : Report :=
  { id := "a", pos := some { lat := 0, lng := 0 }, title := "t1", desc := "d1",
    category := "Severe", votes := { up := 0, down := 0 }, radius := some 500,
    crimeProb := none, createdAt := "" }

/-- Concrete moderate report at the same point. -/
def moderateReport : Report :=
  { severeReport with id := "b", category := "Moderate" }

/-- Concrete low report at the same point. -/
def lowReport : Report :=
  { severeReport with id := "c", category := "Low" }

/-- The three report scenario of the spec. -/
def riskDemoReports : List Report := [severeReport, moderateReport, lowReport]

/-- C2 witness: the scenario of the spec, three covering reports with
categories Severe, Moderate and Low, evaluates through
riskByCategory_matches_spec to round of the average of 90, 60 and 30,
which is 60. -/
theorem riskByCategory_matches_spec_witness :
    (∀ r ∈ riskDemoReports, r.category ∈ categoryEnum) ∧
    riskDemoReports.filter (fun r => isNearby dist0 demoPos r) ≠ [] ∧
    centerCrimeRateByCategory dist0 demoPos riskDemoReports =
      ((roundNearest 180 3 : Nat) : ℤ) ∧
    roundNearest 180 3 = 60 := by
  refine ⟨by decide, by decide, ?_, by decide⟩
  have h := (riskByCategory_matches_spec dist0 demoPos riskDemoReports
    (by decide)).2 (by decide)
  have hs : ((riskDemoReports.filter (fun r => isNearby dist0 demoPos r)).map
      (fun r => specSeverityWeight r.category)).sum = 180 := by decide
  have hl : (riskDemoReports.filter (fun r => isNearby dist0 demoPos r)).length
      = 3 := by decide
  rw [hs, hl] at h
  exact h

/-- A report with an absent radius field, spatially queryable. -/
def noRadiusReport : Report :=
  { id := "r1", pos := some { lat := 0, lng := 0 }, title := "t", desc := "d",
    category := "Low", votes := { up := 0, down := 0 }, radius := none,
    crimeProb := none, createdAt := "" }

/-- C3 counterexample: on a report with an absent radius the coverage
test of the risk computation does not use the default 300; it uses 800,
the fallback at MapView.jsx lines 147 and 210, so the claim that every
operation using the influence radius defaults it to 300 meters fails. -/
theorem radius_default_300_false :
    ¬ (coverageRadius noRadiusReport = 300 ∧
       displayRadius noRadiusReport = 300) := by decide

/-- C3 amended: a report with an absent radius is treated as having
radius 800 meters by the coverage test of the risk computation and 300
meters by the radius circle visualization, while the submission form
initialises its radius input to 300. -/
theorem radius_defaults (r : Report) (h : r.radius = none) :
    coverageRadius r = 800 ∧ displayRadius r = 300 ∧
    initialFormState.radius = 300 := by
  refine ⟨?_, ?_, rfl⟩ <;> simp [coverageRadius, displayRadius, h]

/-- C3 witness: radius_defaults applied to the concrete report with an
absent radius. -/
theorem radius_defaults_witness :
    noRadiusReport.radius = none ∧
    (coverageRadius noRadiusReport = 800 ∧ displayRadius noRadiusReport = 300 ∧
     initialFormState.radius = 300) :=
  ⟨rfl, radius_defaults noRadiusReport rfl⟩

end Sentinel
